import Mathlib

/-
  Verification of the wasmix static web server (`src/hiaudio/start-web-server.py`).

  The script wraps Python's `http.server.SimpleHTTPRequestHandler`:
  it rewrites requests for the root path to `web-receiver.html`, appends three
  CORS headers to every response, checks at startup that the target file
  exists, binds a TCP listener on port 8082, prints connection URLs, opens a
  browser, and serves until a keyboard interrupt.

  The embedding below models the handler as a pure function from a filesystem
  snapshot and a request to a response, and `main` as a pure function from the
  startup environment (filesystem, local-IP probe result, browser-open outcome,
  and a finite trace of serve-loop events) to an observable process result.
-/

namespace Wasmix

/-- Fixed port, from `PORT = 8082` at the top of `main`. -/
def PORT : Nat := 8082

/-- The three CORS headers sent by the `end_headers` override of
`MyHTTPRequestHandler`, in source order. -/
def corsHeaders : List (String × String) :=
  [("Access-Control-Allow-Origin", "*"),
   ("Access-Control-Allow-Methods", "GET, POST, OPTIONS"),
   ("Access-Control-Allow-Headers", "Content-Type")]

/-- The `end_headers` override: the three CORS headers are appended to the
pending header buffer, then the base class flushes the buffer.  Modelled as a
function from the pending headers to the finalized header list. -/
def end_headers (pending : List (String × String)) : List (String × String) :=
  pending ++ corsHeaders

/-- An HTTP response: status code, finalized headers, optional body. -/
structure Response where
  status : Nat
  headers : List (String × String)
  body : Option String
  deriving Repr, DecidableEq

/-- A snapshot of the files in the serving directory: file name (relative to
the working directory) to contents, `none` when absent. -/
abbrev FS := String → Option String

/-- `BaseHTTPRequestHandler.send_error`: an error response with the given
status; its headers go through the (overridden) `end_headers` like any other
response. -/
def send_error (code : Nat) (msg : String) : Response :=
  { status := code,
    headers := end_headers [("Connection", "close")],
    body := some msg }

/-- `SimpleHTTPRequestHandler.translate_path`: the query (`?...`) and fragment
(`#...`) suffixes are dropped and leading slashes stripped, mapping a request
path to a file name relative to the working directory. -/
def translate_path (p : String) : String :=
  String.mk (((p.data.takeWhile (fun c => c ≠ '?')).takeWhile
      (fun c => c ≠ '#')).dropWhile (fun c => c = '/'))

/-- Abstraction of the mimetype table consulted by the base handler; the
claims under verification do not depend on the guessed type. -/
def guess_type (name : String) : String :=
  if String.mk ".html".data = String.mk (name.data.drop (name.length - 5))
  then "text/html" else "application/octet-stream"

/-- `SimpleHTTPRequestHandler` file serving (`send_head` + body copy): 200
with the file contents when the translated path names an existing file,
otherwise a 404 error. -/
def staticServe (fs : FS) (p : String) : Response :=
  match fs (translate_path p) with
  | some content =>
      { status := 200,
        headers := end_headers [("Content-Type", guess_type (translate_path p))],
        body := some content }
  | none => send_error 404 "File not found"

/-- The path-rewrite rule inside `MyHTTPRequestHandler.do_GET`:
`if self.path == '/' or self.path == '/index.html': self.path = '/web-receiver.html'`. -/
def rewritePath (p : String) : String :=
  if p = "/" ∨ p = "/index.html" then "/web-receiver.html" else p

/-- `MyHTTPRequestHandler.do_GET`: rewrite the path, then delegate to the base
class's static file serving. -/
def do_GET (fs : FS) (p : String) : Response :=
  staticServe fs (rewritePath p)

/-- `do_HEAD`, inherited unchanged from `SimpleHTTPRequestHandler`: same file
lookup but no body, and no path rewrite (the override touches only `do_GET`). -/
def do_HEAD (fs : FS) (p : String) : Response :=
  { staticServe fs p with body := none }

/-- Request methods relevant to the handler class. -/
inductive Method
  | GET | HEAD | POST | OPTIONS | DELETE
  deriving DecidableEq, Repr

/-- `BaseHTTPRequestHandler` dispatch: the handler class defines `do_GET`
(overridden) and `do_HEAD` (inherited); any other method has no `do_*` method
and yields a 501 error response. -/
def handleRequest (fs : FS) (m : Method) (p : String) : Response :=
  match m with
  | Method.GET => do_GET fs p
  | Method.HEAD => do_HEAD fs p
  | _ => send_error 501 "Unsupported method"

/-- `get_local_ip`: the UDP-socket probe is modelled by its outcome, `some ip`
on success and `none` when the probe raises; the `except` branch returns the
literal `"localhost"`. -/
def get_local_ip (probe : Option String) : String :=
  match probe with
  | some ip => ip
  | none => "localhost"

/-- One event seen by the serve loop: an incoming request, or the operator's
keyboard interrupt. -/
inductive ServeEvent
  | request (m : Method) (p : String)
  | interrupt
  deriving Repr

/-- Outcome of the serve loop over a finite event trace. -/
structure LoopResult where
  responses : List Response
  interrupted : Bool
  deriving Repr

/-- `httpd.serve_forever()`: requests are handled in order until a
`KeyboardInterrupt` arrives (if ever). -/
def serveLoop (fs : FS) : List ServeEvent → LoopResult
  | [] => { responses := [], interrupted := false }
  | ServeEvent.interrupt :: _ => { responses := [], interrupted := true }
  | ServeEvent.request m p :: rest =>
      let r := serveLoop fs rest
      { responses := handleRequest fs m p :: r.responses,
        interrupted := r.interrupted }

/-- Observable result of a run of `main`: lines printed to stdout, exit status
(`none` while still serving), the bound listen address (`none` when no socket
was ever bound), whether the browser open succeeded, the responses produced,
and whether the listening port was released. -/
structure ProcResult where
  printed : List String
  exit : Option Nat
  bound : Option (String × Nat)
  browserOpened : Bool
  served : List Response
  portReleased : Bool
  deriving Repr

/-- The startup error message printed when `web-receiver.html` is missing. -/
def errNotFound : String := "❌ Error: web-receiver.html not found in current directory"

/-- The shutdown confirmation printed on `KeyboardInterrupt`. -/
def shutdownLine : String := "\n🛑 Server stopped"

/-- The seven status lines printed after the listener is bound, with the
f-string interpolations of `local_ip` and `PORT` made explicit. -/
def startupLines (local_ip : String) : List String :=
  ["🌐 HiAudio Web Server Started!",
   "📱 iPhone/iPad: http://" ++ local_ip ++ ":" ++ toString PORT,
   "💻 Mac/PC: http://localhost:" ++ toString PORT,
   "🔗 Direct: http://127.0.0.1:" ++ toString PORT,
   "\n🔥 Server running on port " ++ toString PORT,
   "   Press Ctrl+C to stop",
   "   📲 Access from iPhone Safari for best experience!"]

/-- `main`: after changing to the script directory (implicit in the `FS`
snapshot), check that `web-receiver.html` exists — if not, print the error and
exit with status 1 without binding a socket; otherwise compute the local IP,
bind the listener on all interfaces at `PORT`, print the status lines,
attempt to open the browser (`webbrowser.open` returns a boolean and its
failure changes nothing else), and serve until interrupted.  A caught
`KeyboardInterrupt` prints the shutdown line; the `with` block then closes
the socket and the process exits with status 0. -/
def main (fs : FS) (probe : Option String) (browserOk : Bool)
    (events : List ServeEvent) : ProcResult :=
  match fs "web-receiver.html" with
  | none =>
      { printed := [errNotFound], exit := some 1, bound := none,
        browserOpened := false, served := [], portReleased := false }
  | some _ =>
      let local_ip := get_local_ip probe
      let r := serveLoop fs events
      { printed := startupLines local_ip ++
          (if r.interrupted then [shutdownLine] else []),
        exit := if r.interrupted then some 0 else none,
        bound := some ("", PORT),
        browserOpened := browserOk,
        served := r.responses,
        portReleased := r.interrupted }

/-- A one-file filesystem holding `web-receiver.html` with known contents,
used for concrete evaluations. -/
def fsOK : FS := fun name =>
  if name = "web-receiver.html" then some "<html>OK</html>" else none

/-- Boolean substring test over character lists, used to count printed lines
that contain a URL. -/
def hasSub (pat l : List Char) : Bool :=
  (List.range (l.length + 1)).any (fun i => pat.isPrefixOf (l.drop i))

/-- A filesystem with no files at all, for concrete evaluations of the
missing-file startup path. -/
def fsEmpty : FS := fun _ => none

/-- Every response built by the static file path has its headers finalized by
`end_headers`, hence ends with the three CORS headers. -/
theorem staticServe_headers_eq (fs : FS) (p : String) :
    ∃ pending, (staticServe fs p).headers = pending ++ corsHeaders := by
  unfold staticServe
  rcases hfs : fs (translate_path p) with _ | c
  · exact ⟨[("Connection", "close")], rfl⟩
  · exact ⟨[("Content-Type", guess_type (translate_path p))], rfl⟩

/-- Evaluation of `main` on the branch where `web-receiver.html` exists. -/
theorem main_some (fs : FS) (probe : Option String) (b : Bool)
    (ev : List ServeEvent) (c : String)
    (hc : fs "web-receiver.html" = some c) :
    main fs probe b ev =
      { printed := startupLines (get_local_ip probe) ++
          (if (serveLoop fs ev).interrupted then [shutdownLine] else []),
        exit := if (serveLoop fs ev).interrupted then some 0 else none,
        bound := some ("", PORT),
        browserOpened := b,
        served := (serveLoop fs ev).responses,
        portReleased := (serveLoop fs ev).interrupted } := by
  unfold main
  rw [hc]

/-- The serve loop reports the interrupt whenever the event trace contains
one. -/
theorem serveLoop_interrupted (fs : FS) (ev : List ServeEvent)
    (h : ServeEvent.interrupt ∈ ev) : (serveLoop fs ev).interrupted = true := by
  induction ev with
  | nil => cases h
  | cons e rest ih =>
    cases e with
    | interrupt => rfl
    | request m p =>
      rcases List.mem_cons.mp h with h1 | h1
      · exact absurd h1 (by simp)
      · simpa [serveLoop] using ih h1

/-- C1 (counterexample): the claim quantifies over any method, but only
`do_GET` is overridden.  A POST request for `/` — even with
`web-receiver.html` present — is answered 501 by the base dispatch, with no
rewrite and not the file's contents. -/
theorem C1_counterexample :
    fsOK "web-receiver.html" = some "<html>OK</html>" ∧
    (handleRequest fsOK Method.POST "/").status = 501 ∧
    ¬ ((handleRequest fsOK Method.POST "/").status = 200 ∧
       (handleRequest fsOK Method.POST "/").body = some "<html>OK</html>") := by
  decide

/-- C1 (amended): for every GET request whose path is exactly `/` or
`/index.html`, the handler rewrites the path to `/web-receiver.html`, so that
when the file exists the response has status 200 and its body equals the
contents of `web-receiver.html`. -/
theorem C1_get_root_serves_target (fs : FS) (p c : String)
    (hp : p = "/" ∨ p = "/index.html")
    (hc : fs "web-receiver.html" = some c) :
    (handleRequest fs Method.GET p).status = 200 ∧
    (handleRequest fs Method.GET p).body = some c := by
  have hrw : rewritePath p = "/web-receiver.html" := by
    rcases hp with h | h <;> simp [rewritePath, h]
  have htp : translate_path "/web-receiver.html" = "web-receiver.html" := by
    decide
  simp [handleRequest, do_GET, hrw, staticServe, htp, hc]

/-- C1 (witness): concrete run of the amended claim at path `/`. -/
theorem C1_witness :
    (handleRequest fsOK Method.GET "/").status = 200 ∧
    (handleRequest fsOK Method.GET "/").body = some "<html>OK</html>" :=
  C1_get_root_serves_target fsOK "/" "<html>OK</html>" (Or.inl rfl) (by decide)

/-- C2: every response produced by the handler — any method, any path,
success or error — has its header list finalized as some pending list with
exactly the three CORS headers appended, and each of the three headers is
present with its literal value. -/
theorem C2_cors_on_every_response (fs : FS) (m : Method) (p : String) :
    (∃ pending, (handleRequest fs m p).headers = pending ++ corsHeaders) ∧
    ("Access-Control-Allow-Origin", "*") ∈ (handleRequest fs m p).headers ∧
    ("Access-Control-Allow-Methods", "GET, POST, OPTIONS") ∈
      (handleRequest fs m p).headers ∧
    ("Access-Control-Allow-Headers", "Content-Type") ∈
      (handleRequest fs m p).headers := by
  have key : ∃ pending, (handleRequest fs m p).headers = pending ++ corsHeaders := by
    cases m with
    | GET => exact staticServe_headers_eq fs (rewritePath p)
    | HEAD => exact staticServe_headers_eq fs p
    | POST => exact ⟨[("Connection", "close")], rfl⟩
    | OPTIONS => exact ⟨[("Connection", "close")], rfl⟩
    | DELETE => exact ⟨[("Connection", "close")], rfl⟩
  obtain ⟨pending, hpd⟩ := key
  refine ⟨⟨pending, hpd⟩, ?_, ?_, ?_⟩ <;> rw [hpd] <;> simp [corsHeaders]

/-- C3: when `web-receiver.html` is missing at startup the process prints the
error line and exits with status 1; no socket is ever bound and no request is
ever served. -/
theorem C3_missing_file_exits (fs : FS) (probe : Option String) (b : Bool)
    (ev : List ServeEvent) (h : fs "web-receiver.html" = none) :
    main fs probe b ev =
      { printed := [errNotFound], exit := some 1, bound := none,
        browserOpened := false, served := [], portReleased := false } := by
  unfold main
  rw [h]

/-- C3 (witness): concrete run with an empty filesystem. -/
theorem C3_witness :
    main fsEmpty none true [] =
      { printed := [errNotFound], exit := some 1, bound := none,
        browserOpened := false, served := [], portReleased := false } :=
  C3_missing_file_exits fsEmpty none true [] rfl

/-- C4: if a keyboard interrupt occurs while serving, the process exits with
status 0, the shutdown confirmation is printed, and the listening port is
released. -/
theorem C4_interrupt_clean_shutdown (fs : FS) (probe : Option String)
    (b : Bool) (ev : List ServeEvent) (c : String)
    (hc : fs "web-receiver.html" = some c)
    (hi : ServeEvent.interrupt ∈ ev) :
    (main fs probe b ev).exit = some 0 ∧
    shutdownLine ∈ (main fs probe b ev).printed ∧
    (main fs probe b ev).portReleased = true := by
  have hint := serveLoop_interrupted fs ev hi
  rw [main_some fs probe b ev c hc]
  simp [hint]

/-- C4 (witness): concrete run whose event trace is a single interrupt. -/
theorem C4_witness :
    (main fsOK none true [ServeEvent.interrupt]).exit = some 0 ∧
    shutdownLine ∈ (main fsOK none true [ServeEvent.interrupt]).printed ∧
    (main fsOK none true [ServeEvent.interrupt]).portReleased = true :=
  C4_interrupt_clean_shutdown fsOK none true [ServeEvent.interrupt]
    "<html>OK</html>" (by decide) (by simp)

/-- C5: when the local-IP probe fails, `get_local_ip` returns the literal
`"localhost"`, startup still binds the listener on port 8082, and the printed
LAN line falls back to the localhost URL. -/
theorem C5_ip_probe_fallback (fs : FS) (b : Bool) (ev : List ServeEvent)
    (c : String) (hc : fs "web-receiver.html" = some c) :
    get_local_ip none = "localhost" ∧
    (main fs none b ev).bound = some ("", PORT) ∧
    ("📱 iPhone/iPad: http://localhost:" ++ toString PORT) ∈
      (main fs none b ev).printed := by
  rw [main_some fs none b ev c hc]
  refine ⟨rfl, rfl, ?_⟩
  exact List.mem_append_left _ (by decide)

/-- C5 (witness): concrete run with a failed probe. -/
theorem C5_witness :
    get_local_ip none = "localhost" ∧
    (main fsOK none true []).bound = some ("", PORT) ∧
    ("📱 iPhone/iPad: http://localhost:" ++ toString PORT) ∈
      (main fsOK none true []).printed :=
  C5_ip_probe_fallback fsOK true [] "<html>OK</html>" (by decide)

/-- C6: a failed browser-open attempt (`webbrowser.open` returning false)
changes nothing observable about the run — printed lines, exit status, bound
address, served responses and port release are identical to a run where the
browser opened — so the failure never aborts startup or prevents serving. -/
theorem C6_browser_failure_harmless (fs : FS) (probe : Option String)
    (ev : List ServeEvent) :
    (main fs probe false ev).printed = (main fs probe true ev).printed ∧
    (main fs probe false ev).exit = (main fs probe true ev).exit ∧
    (main fs probe false ev).bound = (main fs probe true ev).bound ∧
    (main fs probe false ev).served = (main fs probe true ev).served ∧
    (main fs probe false ev).portReleased = (main fs probe true ev).portReleased := by
  unfold main
  cases h : fs "web-receiver.html" <;> exact ⟨rfl, rfl, rfl, rfl, rfl⟩

/-- C7 (counterexample): the claim says four connection URLs are printed, but
in a concrete successful startup exactly three printed lines contain
`http://`. -/
theorem C7_counterexample :
    ((main fsOK (some "192.168.1.5") true []).printed.countP
        (fun l => hasSub "http://".data l.data)) = 3 ∧
    ¬ ((main fsOK (some "192.168.1.5") true []).printed.countP
        (fun l => hasSub "http://".data l.data)) = 4 := by
  decide

/-- C7 (amended): at startup the process prints three connection URLs — LAN
IP, localhost and loopback 127.0.0.1, each with the fixed port — as lines 2–4
of the seven status lines, plus operator guidance text. -/
theorem C7_three_urls (fs : FS) (probe : Option String) (b : Bool)
    (ev : List ServeEvent) (c : String)
    (hc : fs "web-receiver.html" = some c) :
    (main fs probe b ev).printed.take 7 = startupLines (get_local_ip probe) ∧
    (startupLines (get_local_ip probe)).length = 7 ∧
    (startupLines (get_local_ip probe)).get? 1 =
      some ("📱 iPhone/iPad: http://" ++ get_local_ip probe ++ ":" ++ toString PORT) ∧
    (startupLines (get_local_ip probe)).get? 2 =
      some ("💻 Mac/PC: http://localhost:" ++ toString PORT) ∧
    (startupLines (get_local_ip probe)).get? 3 =
      some ("🔗 Direct: http://127.0.0.1:" ++ toString PORT) ∧
    (startupLines (get_local_ip probe)).get? 5 = some "   Press Ctrl+C to stop" := by
  rw [main_some fs probe b ev c hc]
  refine ⟨?_, rfl, rfl, rfl, rfl, rfl⟩
  simp [startupLines]

/-- C7 (witness): concrete run with a successful probe. -/
theorem C7_witness :
    (main fsOK (some "10.0.0.2") true []).printed.take 7 =
      startupLines (get_local_ip (some "10.0.0.2")) ∧
    (startupLines (get_local_ip (some "10.0.0.2"))).length = 7 ∧
    (startupLines (get_local_ip (some "10.0.0.2"))).get? 1 =
      some ("📱 iPhone/iPad: http://" ++ get_local_ip (some "10.0.0.2") ++ ":" ++
        toString PORT) ∧
    (startupLines (get_local_ip (some "10.0.0.2"))).get? 2 =
      some ("💻 Mac/PC: http://localhost:" ++ toString PORT) ∧
    (startupLines (get_local_ip (some "10.0.0.2"))).get? 3 =
      some ("🔗 Direct: http://127.0.0.1:" ++ toString PORT) ∧
    (startupLines (get_local_ip (some "10.0.0.2"))).get? 5 =
      some "   Press Ctrl+C to stop" :=
  C7_three_urls fsOK (some "10.0.0.2") true [] "<html>OK</html>" (by decide)

/-- C8: whenever the server starts, the listener is bound on all interfaces
(empty host) at the fixed port 8082.  The embedding of `main` takes no
configuration inputs at all — mirroring that the script reads no environment
variable, file or argument — so this holds for every environment. -/
theorem C8_bind_all_interfaces_fixed_port (fs : FS) (probe : Option String)
    (b : Bool) (ev : List ServeEvent) (c : String)
    (hc : fs "web-receiver.html" = some c) :
    (main fs probe b ev).bound = some ("", 8082) ∧ PORT = 8082 := by
  rw [main_some fs probe b ev c hc]
  exact ⟨rfl, rfl⟩

/-- C8 (witness): concrete run binding ("", 8082). -/
theorem C8_witness :
    (main fsOK none true []).bound = some ("", 8082) ∧ PORT = 8082 :=
  C8_bind_all_interfaces_fixed_port fsOK none true [] "<html>OK</html>" (by decide)

/-- C9: the path-rewrite rule is idempotent, and in particular leaves the
rewritten target `/web-receiver.html` unchanged. -/
theorem C9_rewrite_idempotent (p : String) :
    rewritePath (rewritePath p) = rewritePath p ∧
    rewritePath "/web-receiver.html" = "/web-receiver.html" := by
  constructor
  · by_cases h : p = "/" ∨ p = "/index.html"
    · have hp : rewritePath p = "/web-receiver.html" := by simp [rewritePath, h]
      rw [hp]
      decide
    · have hp : rewritePath p = p := by simp [rewritePath, h]
      rw [hp]
      exact hp
  · decide

/-- C10: the rewrite fires only on exact equality with `/` or `/index.html`;
any other path — `/index.html?v=1`, `//`, `/index.htm`, … — is passed to the
static file handler unchanged. -/
theorem C10_no_rewrite_unless_exact (fs : FS) (p : String)
    (h1 : p ≠ "/") (h2 : p ≠ "/index.html") :
    rewritePath p = p ∧ do_GET fs p = staticServe fs p := by
  have hp : rewritePath p = p := by simp [rewritePath, h1, h2]
  exact ⟨hp, by simp [do_GET, hp]⟩

/-- C10 (witness): a query-string variant of the index path is not
rewritten. -/
theorem C10_witness :
    ("/index.html?v=1" ≠ "/") ∧ ("/index.html?v=1" ≠ "/index.html") ∧
    rewritePath "/index.html?v=1" = "/index.html?v=1" ∧
    do_GET fsOK "/index.html?v=1" = staticServe fsOK "/index.html?v=1" :=
  ⟨by decide, by decide,
   (C10_no_rewrite_unless_exact fsOK "/index.html?v=1" (by decide) (by decide)).1,
   (C10_no_rewrite_unless_exact fsOK "/index.html?v=1" (by decide) (by decide)).2⟩

end Wasmix
